import Mathlib

set_option maxRecDepth 100000
set_option maxHeartbeats 4000000

/-!
Verification of the eip2771toolkit Go library (EIP-2771 meta-transaction
toolkit).  We shallowly embed the byte-level pipeline of the library:
Keccak-256 (go-ethereum `crypto.Keccak256`, i.e. legacy Keccak with 0x01
padding), the `MetaTx` / `Signature` data model (`types.go`), the EIP-712
hashing (`eip712.go`), the constructors and batch utilities (`utils.go`)
and the validators (`relayer.go`).  Byte strings are `List Nat` with each
element < 256; 64-bit words are `Nat` reduced mod 2^64 where the Go code
would wrap.
-/

/-! ### Keccak-256 (the `crypto.Keccak256` primitive used by the library)

Keccak-f[1600] followed by the sponge with rate 136 bytes and legacy
multi-rate padding (first pad byte 0x01), as implemented by go-ethereum's
`sha3.NewLegacyKeccak256`.  The 25-lane state is packed into a single `Nat`
of up to 1600 bits: lane `(x, y)` (64 bits, index `j = x + 5*y`) occupies
bits `64*j .. 64*j + 63`.  Because the sponge maps rate byte `i` to bit
positions `8*i .. 8*i + 7` in exactly this lane order, absorbing a block is
one XOR with the little-endian number of its bytes.  The embedding is
validated against the standard test vectors below. -/

def rotl64 (n k : Nat) : Nat :=
  ((n <<< k) ||| (n >>> (64 - k))) % (2 ^ 64)

/-- Round constants of Keccak-f[1600]. -/
def keccakRC : List Nat :=
  [0x1, 0x8082, 0x800000000000808a, 0x8000000080008000,
   0x808b, 0x80000001, 0x8000000080008081, 0x8000000000008009,
   0x8a, 0x88, 0x80008009, 0x8000000a,
   0x8000808b, 0x800000000000008b, 0x8000000000008089, 0x8000000000008003,
   0x8000000000008002, 0x8000000000000080, 0x800a, 0x800000008000000a,
   0x8000000080008081, 0x8000000000008080, 0x80000001, 0x8000000080008008]

/-- One round of Keccak-f[1600] on the packed state: unpack the 25 lanes,
apply θ (column parities `c`, differences `d`, lane update `t`), ρ and π
combined (each output lane `b[y + 5*((2x+3y) mod 5)]` is the input lane
`(x, y)` rotated by the standard offset), χ (`e`), ι (the round constant
into lane 0), and repack row by row. -/
def keccakRound (S rc : Nat) : Nat :=
  let a0 := (S >>> 0) &&& 0xFFFFFFFFFFFFFFFF
  let a1 := (S >>> 64) &&& 0xFFFFFFFFFFFFFFFF
  let a2 := (S >>> 128) &&& 0xFFFFFFFFFFFFFFFF
  let a3 := (S >>> 192) &&& 0xFFFFFFFFFFFFFFFF
  let a4 := (S >>> 256) &&& 0xFFFFFFFFFFFFFFFF
  let a5 := (S >>> 320) &&& 0xFFFFFFFFFFFFFFFF
  let a6 := (S >>> 384) &&& 0xFFFFFFFFFFFFFFFF
  let a7 := (S >>> 448) &&& 0xFFFFFFFFFFFFFFFF
  let a8 := (S >>> 512) &&& 0xFFFFFFFFFFFFFFFF
  let a9 := (S >>> 576) &&& 0xFFFFFFFFFFFFFFFF
  let a10 := (S >>> 640) &&& 0xFFFFFFFFFFFFFFFF
  let a11 := (S >>> 704) &&& 0xFFFFFFFFFFFFFFFF
  let a12 := (S >>> 768) &&& 0xFFFFFFFFFFFFFFFF
  let a13 := (S >>> 832) &&& 0xFFFFFFFFFFFFFFFF
  let a14 := (S >>> 896) &&& 0xFFFFFFFFFFFFFFFF
  let a15 := (S >>> 960) &&& 0xFFFFFFFFFFFFFFFF
  let a16 := (S >>> 1024) &&& 0xFFFFFFFFFFFFFFFF
  let a17 := (S >>> 1088) &&& 0xFFFFFFFFFFFFFFFF
  let a18 := (S >>> 1152) &&& 0xFFFFFFFFFFFFFFFF
  let a19 := (S >>> 1216) &&& 0xFFFFFFFFFFFFFFFF
  let a20 := (S >>> 1280) &&& 0xFFFFFFFFFFFFFFFF
  let a21 := (S >>> 1344) &&& 0xFFFFFFFFFFFFFFFF
  let a22 := (S >>> 1408) &&& 0xFFFFFFFFFFFFFFFF
  let a23 := (S >>> 1472) &&& 0xFFFFFFFFFFFFFFFF
  let a24 := (S >>> 1536) &&& 0xFFFFFFFFFFFFFFFF
  let c0 := a0 ^^^ a5 ^^^ a10 ^^^ a15 ^^^ a20
  let c1 := a1 ^^^ a6 ^^^ a11 ^^^ a16 ^^^ a21
  let c2 := a2 ^^^ a7 ^^^ a12 ^^^ a17 ^^^ a22
  let c3 := a3 ^^^ a8 ^^^ a13 ^^^ a18 ^^^ a23
  let c4 := a4 ^^^ a9 ^^^ a14 ^^^ a19 ^^^ a24
  let d0 := c4 ^^^ rotl64 c1 1
  let d1 := c0 ^^^ rotl64 c2 1
  let d2 := c1 ^^^ rotl64 c3 1
  let d3 := c2 ^^^ rotl64 c4 1
  let d4 := c3 ^^^ rotl64 c0 1
  let t0 := a0 ^^^ d0
  let t1 := a1 ^^^ d1
  let t2 := a2 ^^^ d2
  let t3 := a3 ^^^ d3
  let t4 := a4 ^^^ d4
  let t5 := a5 ^^^ d0
  let t6 := a6 ^^^ d1
  let t7 := a7 ^^^ d2
  let t8 := a8 ^^^ d3
  let t9 := a9 ^^^ d4
  let t10 := a10 ^^^ d0
  let t11 := a11 ^^^ d1
  let t12 := a12 ^^^ d2
  let t13 := a13 ^^^ d3
  let t14 := a14 ^^^ d4
  let t15 := a15 ^^^ d0
  let t16 := a16 ^^^ d1
  let t17 := a17 ^^^ d2
  let t18 := a18 ^^^ d3
  let t19 := a19 ^^^ d4
  let t20 := a20 ^^^ d0
  let t21 := a21 ^^^ d1
  let t22 := a22 ^^^ d2
  let t23 := a23 ^^^ d3
  let t24 := a24 ^^^ d4
  let b0 := t0
  let b1 := rotl64 t6 44
  let b2 := rotl64 t12 43
  let b3 := rotl64 t18 21
  let b4 := rotl64 t24 14
  let b5 := rotl64 t3 28
  let b6 := rotl64 t9 20
  let b7 := rotl64 t10 3
  let b8 := rotl64 t16 45
  let b9 := rotl64 t22 61
  let b10 := rotl64 t1 1
  let b11 := rotl64 t7 6
  let b12 := rotl64 t13 25
  let b13 := rotl64 t19 8
  let b14 := rotl64 t20 18
  let b15 := rotl64 t4 27
  let b16 := rotl64 t5 36
  let b17 := rotl64 t11 10
  let b18 := rotl64 t17 15
  let b19 := rotl64 t23 56
  let b20 := rotl64 t2 62
  let b21 := rotl64 t8 55
  let b22 := rotl64 t14 39
  let b23 := rotl64 t15 41
  let b24 := rotl64 t21 2
  let e0 := b0 ^^^ ((b1 ^^^ 0xFFFFFFFFFFFFFFFF) &&& b2)
  let e1 := b1 ^^^ ((b2 ^^^ 0xFFFFFFFFFFFFFFFF) &&& b3)
  let e2 := b2 ^^^ ((b3 ^^^ 0xFFFFFFFFFFFFFFFF) &&& b4)
  let e3 := b3 ^^^ ((b4 ^^^ 0xFFFFFFFFFFFFFFFF) &&& b0)
  let e4 := b4 ^^^ ((b0 ^^^ 0xFFFFFFFFFFFFFFFF) &&& b1)
  let e5 := b5 ^^^ ((b6 ^^^ 0xFFFFFFFFFFFFFFFF) &&& b7)
  let e6 := b6 ^^^ ((b7 ^^^ 0xFFFFFFFFFFFFFFFF) &&& b8)
  let e7 := b7 ^^^ ((b8 ^^^ 0xFFFFFFFFFFFFFFFF) &&& b9)
  let e8 := b8 ^^^ ((b9 ^^^ 0xFFFFFFFFFFFFFFFF) &&& b5)
  let e9 := b9 ^^^ ((b5 ^^^ 0xFFFFFFFFFFFFFFFF) &&& b6)
  let e10 := b10 ^^^ ((b11 ^^^ 0xFFFFFFFFFFFFFFFF) &&& b12)
  let e11 := b11 ^^^ ((b12 ^^^ 0xFFFFFFFFFFFFFFFF) &&& b13)
  let e12 := b12 ^^^ ((b13 ^^^ 0xFFFFFFFFFFFFFFFF) &&& b14)
  let e13 := b13 ^^^ ((b14 ^^^ 0xFFFFFFFFFFFFFFFF) &&& b10)
  let e14 := b14 ^^^ ((b10 ^^^ 0xFFFFFFFFFFFFFFFF) &&& b11)
  let e15 := b15 ^^^ ((b16 ^^^ 0xFFFFFFFFFFFFFFFF) &&& b17)
  let e16 := b16 ^^^ ((b17 ^^^ 0xFFFFFFFFFFFFFFFF) &&& b18)
  let e17 := b17 ^^^ ((b18 ^^^ 0xFFFFFFFFFFFFFFFF) &&& b19)
  let e18 := b18 ^^^ ((b19 ^^^ 0xFFFFFFFFFFFFFFFF) &&& b15)
  let e19 := b19 ^^^ ((b15 ^^^ 0xFFFFFFFFFFFFFFFF) &&& b16)
  let e20 := b20 ^^^ ((b21 ^^^ 0xFFFFFFFFFFFFFFFF) &&& b22)
  let e21 := b21 ^^^ ((b22 ^^^ 0xFFFFFFFFFFFFFFFF) &&& b23)
  let e22 := b22 ^^^ ((b23 ^^^ 0xFFFFFFFFFFFFFFFF) &&& b24)
  let e23 := b23 ^^^ ((b24 ^^^ 0xFFFFFFFFFFFFFFFF) &&& b20)
  let e24 := b24 ^^^ ((b20 ^^^ 0xFFFFFFFFFFFFFFFF) &&& b21)
  let e0 := e0 ^^^ rc
  let p0 := e0 ||| (e1 <<< 64) ||| (e2 <<< 128) ||| (e3 <<< 192) ||| (e4 <<< 256)
  let p1 := (e5 <<< 320) ||| (e6 <<< 384) ||| (e7 <<< 448) ||| (e8 <<< 512) ||| (e9 <<< 576)
  let p2 := (e10 <<< 640) ||| (e11 <<< 704) ||| (e12 <<< 768) ||| (e13 <<< 832) ||| (e14 <<< 896)
  let p3 := (e15 <<< 960) ||| (e16 <<< 1024) ||| (e17 <<< 1088) ||| (e18 <<< 1152) ||| (e19 <<< 1216)
  let p4 := (e20 <<< 1280) ||| (e21 <<< 1344) ||| (e22 <<< 1408) ||| (e23 <<< 1472) ||| (e24 <<< 1536)
  p0 ||| p1 ||| p2 ||| p3 ||| p4

def keccakF (S : Nat) : Nat :=
  keccakRC.foldl keccakRound S

/-- Bytes to the number they denote in little-endian base 256. -/
def bytesToNat (bs : List Nat) : Nat :=
  bs.foldr (fun b acc => acc * 256 + b) 0

/-- XOR one 136-byte block into the rate portion of the state, then permute. -/
def absorbBlock (S : Nat) (block : List Nat) : Nat :=
  keccakF (S ^^^ bytesToNat block)

def absorbBlocks : Nat → Nat → List Nat → Nat
  | 0, S, _ => S
  | n + 1, S, rest => absorbBlocks n (absorbBlock S (rest.take 136)) (rest.drop 136)

/-- Legacy Keccak multi-rate padding: append 0x01, zero fill, final byte 0x80
(a single 0x81 byte when one byte of padding remains). -/
def keccakPad (msg : List Nat) : List Nat :=
  let padLen := 136 - msg.length % 136
  if padLen = 1 then msg ++ [0x81]
  else msg ++ 0x01 :: List.replicate (padLen - 2) 0 ++ [0x80]

/-- Keccak-256 of a byte string: absorb all padded blocks, squeeze the first
32 bytes of the rate (little-endian). -/
def keccak256 (msg : List Nat) : List Nat :=
  let padded := keccakPad msg
  let S := absorbBlocks (padded.length / 136) 0 padded
  (List.range 32).map fun i => (S >>> (8 * i)) &&& 0xFF

/-! ### Byte-string constants of the library (`eip712.go`, `types.go`)

The Go source holds these as string literals; we embed their UTF-8 (ASCII)
bytes. -/

/-- Bytes of `EIP712_DOMAIN_TYPEHASH = "EIP712Domain(string name,string
version,uint256 chainId,address verifyingContract)"`. -/
def eip712DomainTypehashBytes : List Nat :=
  [69, 73, 80, 55, 49, 50, 68, 111, 109, 97, 105, 110, 40, 115, 116, 114,
   105, 110, 103, 32, 110, 97, 109, 101, 44, 115, 116, 114, 105, 110, 103, 32,
   118, 101, 114, 115, 105, 111, 110, 44, 117, 105, 110, 116, 50, 53, 54, 32,
   99, 104, 97, 105, 110, 73, 100, 44, 97, 100, 100, 114, 101, 115, 115, 32,
   118, 101, 114, 105, 102, 121, 105, 110, 103, 67, 111, 110, 116, 114, 97, 99,
   116, 41]

/-- Bytes of `FORWARD_REQUEST_TYPEHASH = "ForwardRequest(address from,address
to,uint256 value,uint256 gas,uint256 nonce,uint48 deadline,bytes data)"`. -/
def forwardRequestTypehashBytes : List Nat :=
  [70, 111, 114, 119, 97, 114, 100, 82, 101, 113, 117, 101, 115, 116, 40, 97,
   100, 100, 114, 101, 115, 115, 32, 102, 114, 111, 109, 44, 97, 100, 100, 114,
   101, 115, 115, 32, 116, 111, 44, 117, 105, 110, 116, 50, 53, 54, 32, 118,
   97, 108, 117, 101, 44, 117, 105, 110, 116, 50, 53, 54, 32, 103, 97, 115,
   44, 117, 105, 110, 116, 50, 53, 54, 32, 110, 111, 110, 99, 101, 44, 117,
   105, 110, 116, 52, 56, 32, 100, 101, 97, 100, 108, 105, 110, 101, 44, 98,
   121, 116, 101, 115, 32, 100, 97, 116, 97, 41]

/-- Bytes of the ERC-20 signature string `"transfer(address,uint256)"`. -/
def transferSignatureBytes : List Nat :=
  [116, 114, 97, 110, 115, 102, 101, 114, 40, 97, 100, 100, 114, 101, 115, 115,
   44, 117, 105, 110, 116, 50, 53, 54, 41]

/-! ### Data model (`types.go`) and errors (`errors.go`) -/

/-- Errors of the library.  The sentinel errors come from `errors.go`; the
remaining constructors model the `fmt.Errorf` sites (`lengthMismatch` for the
two parallel-array checks, `invalidNonceAt` for `ValidateBatchNonces`,
`cancelled` for `ctx.Err()` of a cancelled context, `recoveryFailed` for the
wrap of a `crypto.SigToPub` failure, `indexed`/`wrapped` for the `%w`
wrappings). -/
inductive GoError where
  | invalidSignatureLength
  | invalidSignature
  | expiredDeadline
  | invalidNonce
  | zeroAddress
  | invalidAmount
  | contractCallFailed
  | lengthMismatch (got expected : Nat)
  | invalidNonceAt (i expected got : Nat)
  | cancelled
  | recoveryFailed
  | indexed (i : Nat) (e : GoError)
  | wrapped (e : GoError)
  deriving DecidableEq, Repr

/-- Go type `common.Address` is `[20]byte` in Go; every value of the Go type is a
byte list of length 20. -/
abbrev Address := List Nat

/-- The zero value `common.Address{}`. -/
def zeroAddr : Address := List.replicate 20 0

/-- Go `MetaTx` (types.go).  `Amount` is a `*big.Int`; `none` models a nil
pointer and a negative value models a negative big integer. -/
structure MetaTx where
  From : Address
  To : Address
  Token : Address
  Amount : Option Int
  Gas : Nat
  Nonce : Nat
  Deadline : Nat
  deriving DecidableEq, Repr

/-- Go `Signature` (types.go): `V byte`, `R [32]byte`, `S [32]byte`. -/
structure Signature where
  V : Nat
  R : List Nat
  S : List Nat
  deriving DecidableEq, Repr

/-- Go `BatchMetaTxRequest` (types.go). -/
structure BatchMetaTxRequest where
  metaTx : MetaTx
  signature : Signature
  deriving DecidableEq, Repr

instance : Inhabited MetaTx := ⟨⟨[], [], [], none, 0, 0, 0⟩⟩

instance : Inhabited Signature := ⟨⟨0, [], []⟩⟩

instance : Inhabited BatchMetaTxRequest := ⟨⟨default, default⟩⟩

/-- Go method `(*Signature).ToBytes` (types.go): a 65-byte buffer with `R` copied to
positions 0..32, `S` to 32..64 and `V` at 64. -/
def Signature.ToBytes (s : Signature) : List Nat :=
  (List.range 65).map fun i =>
    if i < 32 then s.R.getD i 0
    else if i < 64 then s.S.getD (i - 32) 0
    else s.V

/-- Go method `(*Signature).FromBytes` (types.go).  The Go method mutates its receiver
and returns an error; we return the updated receiver together with the
optional error.  On a length mismatch it returns before copying, leaving the
receiver unchanged. -/
def Signature.FromBytes (s : Signature) (data : List Nat) :
    Signature × Option GoError :=
  if data.length ≠ 65 then (s, some .invalidSignatureLength)
  else ({ R := data.take 32, S := (data.drop 32).take 32, V := data.getD 64 0 },
        none)

/-! ### Wire encodings -/

/-- Go method `(*big.Int).FillBytes` on a fresh 32-byte buffer: the 32-byte big-endian
encoding of the value.  Faithful for `0 ≤ n < 2^256`; Go panics above 2^256
(that region is outside every theorem below). -/
def be32 (n : Nat) : List Nat :=
  (List.range 32).map fun i => (n >>> (8 * (31 - i))) &&& 0xFF

/-- Go call `m.Amount.FillBytes(buf)` for the 32-byte buffer in `TransferData`.
Go panics when the pointer is nil (outside every theorem below) and encodes
the absolute value of a negative integer. -/
def fillBytes32 : Option Int → List Nat
  | none => be32 0
  | some z => be32 z.natAbs

/-- Go method `(*MetaTx).TransferData` (types.go): selector of
`transfer(address,uint256)`, the recipient copied into the last 20 bytes of a
zeroed 32-byte buffer (`copy(toBytes[12:], m.To.Bytes())`), then the 32-byte
amount. -/
def MetaTx.TransferData (m : MetaTx) : Except GoError (List Nat) :=
  let transferSignature := (keccak256 transferSignatureBytes).take 4
  let toBytes := List.replicate 12 0 ++ m.To
  let amountBytes := fillBytes32 m.Amount
  .ok (transferSignature ++ toBytes ++ amountBytes)

/-! ### EIP-712 hashing (`eip712.go`) -/

/-- Go `BuildDomainSeparator` (eip712.go).  Note: the source appends
`verifyingContract.Bytes()` — the raw 20 address bytes, with no 12-byte
zero padding before them. -/
def BuildDomainSeparator (name version : List Nat) (chainId : Nat)
    (verifyingContract : Address) : Except GoError (List Nat) :=
  let domainTypeHash := keccak256 eip712DomainTypehashBytes
  let nameHash := keccak256 name
  let versionHash := keccak256 version
  let chainIdBytes := be32 chainId
  let data := domainTypeHash ++ nameHash ++ versionHash ++ chainIdBytes ++
    verifyingContract
  .ok (keccak256 data)

/-- Go `HashMetaTx` (eip712.go).  Note: the source appends `metaTx.From.Bytes()`
and `metaTx.Token.Bytes()` — the raw 20-byte addresses, unpadded — between
the 32-byte words of the struct encoding. -/
def HashMetaTx (m : MetaTx) (domainSeparator : List Nat) :
    Except GoError (List Nat) :=
  let structTypeHash := keccak256 forwardRequestTypehashBytes
  match m.TransferData with
  | .error e => .error (.wrapped e)
  | .ok transferData =>
    let structData := structTypeHash ++ m.From ++ m.Token ++
      be32 0 ++ be32 m.Gas ++ be32 m.Nonce ++ be32 m.Deadline ++
      keccak256 transferData
    let structHash := keccak256 structData
    let digest := [0x19, 0x01] ++ domainSeparator ++ structHash
    .ok (keccak256 digest)

/-- Reference definition following the spec wording (§4.4, "Domain separator"):
`keccak256(DOMAIN_TYPEHASH ‖ keccak256(name) ‖ keccak256(version) ‖
be32(chainId) ‖ leftpad32(verifyingContract))` where `leftpad32` prepends 12
zero bytes to the 20 address bytes.  Used only to compare against the source
function `BuildDomainSeparator`. -/
def buildDomainSeparatorSpec (name version : List Nat) (chainId : Nat)
    (verifyingContract : Address) : List Nat :=
  keccak256 (keccak256 eip712DomainTypehashBytes ++ keccak256 name ++
    keccak256 version ++ be32 chainId ++
    (List.replicate 12 0 ++ verifyingContract))

/-- Reference definition following the spec wording (§4.4, "ForwardRequest struct hash" and "Digest"):
the struct hash with `leftpad32(from)` and `leftpad32(token)`, then
`keccak256(0x19 ‖ 0x01 ‖ domainSeparator ‖ structHash)`.  Used only to
compare against the source function `HashMetaTx`. -/
def hashMetaTxSpec (m : MetaTx) (domainSeparator : List Nat) : List Nat :=
  let innerData := (keccak256 transferSignatureBytes).take 4 ++
    (List.replicate 12 0 ++ m.To) ++ fillBytes32 m.Amount
  let structHash := keccak256 (keccak256 forwardRequestTypehashBytes ++
    (List.replicate 12 0 ++ m.From) ++ (List.replicate 12 0 ++ m.Token) ++
    be32 0 ++ be32 m.Gas ++ be32 m.Nonce ++ be32 m.Deadline ++
    keccak256 innerData)
  keccak256 ([0x19, 0x01] ++ domainSeparator ++ structHash)

/-! ### Constructors and batch utilities (`utils.go`) -/

/-- Go `NewMetaTx` (utils.go): assembles the struct from its arguments. -/
def NewMetaTx (fromA toA token : Address) (amount : Option Int)
    (gas nonce deadline : Nat) : MetaTx :=
  { From := fromA, To := toA, Token := token, Amount := amount,
    Gas := gas, Nonce := nonce, Deadline := deadline }

/-- Go `NewMetaTxWithDefaultGas` (utils.go): `NewMetaTx` with gas 100000. -/
def NewMetaTxWithDefaultGas (fromA toA token : Address) (amount : Option Int)
    (nonce deadline : Nat) : MetaTx :=
  NewMetaTx fromA toA token amount 100000 nonce deadline

/-- Go `NewMetaTxBatch` (utils.go): length check, then one `MetaTx` per
recipient with nonce `startingNonce + uint64(i)` (64-bit wrap-around
addition). -/
def NewMetaTxBatch (fromA : Address) (recipients : List Address)
    (token : Address) (amounts : List (Option Int))
    (gas startingNonce deadline : Nat) : Except GoError (List MetaTx) :=
  if recipients.length ≠ amounts.length then
    .error (.lengthMismatch recipients.length amounts.length)
  else
    .ok ((List.range recipients.length).map fun i =>
      NewMetaTx fromA (recipients.getD i []) token (amounts.getD i none)
        gas ((startingNonce + i) % 2 ^ 64) deadline)

/-- Loop of `ValidateBatchNonces` (utils.go), carrying the running index
`i`; the expected nonce is `expectedStartNonce + uint64(i)` with 64-bit
wrap-around. -/
def validateBatchNoncesAux (start : Nat) :
    Nat → List BatchMetaTxRequest → Except GoError Unit
  | _, [] => .ok ()
  | i, req :: rest =>
    let expected := (start + i) % 2 ^ 64
    if req.metaTx.Nonce ≠ expected then
      .error (.invalidNonceAt i expected req.metaTx.Nonce)
    else validateBatchNoncesAux start (i + 1) rest

/-- Go `ValidateBatchNonces` (utils.go). -/
def ValidateBatchNonces (batch : List BatchMetaTxRequest)
    (expectedStartNonce : Nat) : Except GoError Unit :=
  validateBatchNoncesAux expectedStartNonce 0 batch

/-- Go `validateMetaTx` (relayer.go): zero-address checks on the three
addresses, then nil-or-nonpositive amount, then zero deadline. -/
def validateMetaTx (m : MetaTx) : Except GoError Unit :=
  if m.From = zeroAddr then .error .zeroAddress
  else if m.To = zeroAddr then .error .zeroAddress
  else if m.Token = zeroAddr then .error .zeroAddress
  else
    match m.Amount with
    | none => .error .invalidAmount
    | some a =>
      if a ≤ 0 then .error .invalidAmount
      else if m.Deadline = 0 then .error .expiredDeadline
      else .ok ()

/-! ### Signing and verification (`eip712.go`, `relayer.go`)

The secp256k1 primitives (`crypto.Sign`, `crypto.SigToPub` composed with
`crypto.PubkeyToAddress`) are external collaborators from go-ethereum; the
embedding takes them as function parameters.  `cryptoSign hash key` models
`crypto.Sign(hash, key)`; `recoverAddr hash sigBytes` models
`crypto.PubkeyToAddress(*crypto.SigToPub(hash, sigBytes))`, returning `none`
when `crypto.SigToPub` rejects the signature. -/

/-- Go `SignMetaTx` (eip712.go): hash, sign the digest, parse the 65-byte
output through `Signature.FromBytes` on a zero-valued receiver. -/
def SignMetaTx {α : Type} (cryptoSign : List Nat → α → Except GoError (List Nat))
    (m : MetaTx) (userPrivKey : α) (domainSeparator : List Nat) :
    Except GoError Signature :=
  match HashMetaTx m domainSeparator with
  | .error e => .error (.wrapped e)
  | .ok hash =>
    match cryptoSign hash userPrivKey with
    | .error e => .error (.wrapped e)
    | .ok sigBytes =>
      match Signature.FromBytes ⟨0, List.replicate 32 0, List.replicate 32 0⟩
          sigBytes with
      | (_, some e) => .error (.wrapped e)
      | (sig, none) => .ok sig

/-- Go `VerifyMetaTxSignature` (eip712.go): hash, recover, compare the
recovered address with `metaTx.From`.  A recovery failure is an error; a
mismatched address is the boolean result `false`. -/
def VerifyMetaTxSignature (recoverAddr : List Nat → List Nat → Option Address)
    (m : MetaTx) (sig : Signature) (domainSeparator : List Nat) :
    Except GoError Bool :=
  match HashMetaTx m domainSeparator with
  | .error e => .error (.wrapped e)
  | .ok hash =>
    match recoverAddr hash sig.ToBytes with
    | none => .error .recoveryFailed
    | some recoveredAddr => .ok (recoveredAddr == m.From)

/-- Go `CreateBatchRequest` (relayer.go): sign and pair. -/
def CreateBatchRequest {α : Type}
    (cryptoSign : List Nat → α → Except GoError (List Nat)) (m : MetaTx)
    (userPrivKey : α) (domainSeparator : List Nat) :
    Except GoError BatchMetaTxRequest :=
  match SignMetaTx cryptoSign m userPrivKey domainSeparator with
  | .error e => .error (.wrapped e)
  | .ok signature => .ok ⟨m, signature⟩

/-! The batch loops poll the cancellation signal of the `context.Context`
once per element, before doing that element's work; `polls i = true` means
the context is observed as cancelled (`ctx.Done()` is closed) at the poll
preceding element `i`.  An already-cancelled context is `fun _ => true`. -/

/-- Loop of `CreateBatchFromSingleUser` (utils.go). -/
def createBatchFromSingleUserAux {α : Type} (polls : Nat → Bool)
    (cryptoSign : List Nat → α → Except GoError (List Nat)) (userPrivKey : α)
    (domainSeparator : List Nat) :
    Nat → List MetaTx → Except GoError (List BatchMetaTxRequest)
  | _, [] => .ok []
  | i, m :: rest =>
    if polls i then .error .cancelled
    else
      match CreateBatchRequest cryptoSign m userPrivKey domainSeparator with
      | .error e => .error (.indexed i e)
      | .ok req =>
        match createBatchFromSingleUserAux polls cryptoSign userPrivKey
            domainSeparator (i + 1) rest with
        | .error e => .error e
        | .ok batch => .ok (req :: batch)

/-- Go `CreateBatchFromSingleUser` (utils.go). -/
def CreateBatchFromSingleUser {α : Type} (polls : Nat → Bool)
    (cryptoSign : List Nat → α → Except GoError (List Nat))
    (metaTxs : List MetaTx) (userPrivKey : α) (domainSeparator : List Nat) :
    Except GoError (List BatchMetaTxRequest) :=
  createBatchFromSingleUserAux polls cryptoSign userPrivKey domainSeparator
    0 metaTxs

/-- Loop of `CreateBatchFromMetaTxs` (utils.go), walking the two
equal-length lists in lockstep (the Go loop indexes `userPrivKeys[i]` after
the length check; the mixed-length branch below is unreachable). -/
def createBatchFromMetaTxsAux {α : Type} (polls : Nat → Bool)
    (cryptoSign : List Nat → α → Except GoError (List Nat))
    (domainSeparator : List Nat) :
    Nat → List MetaTx → List α → Except GoError (List BatchMetaTxRequest)
  | _, [], _ => .ok []
  | _, _ :: _, [] => .ok []
  | i, m :: rest, key :: keys =>
    if polls i then .error .cancelled
    else
      match CreateBatchRequest cryptoSign m key domainSeparator with
      | .error e => .error (.indexed i e)
      | .ok req =>
        match createBatchFromMetaTxsAux polls cryptoSign domainSeparator
            (i + 1) rest keys with
        | .error e => .error e
        | .ok batch => .ok (req :: batch)

/-- Go `CreateBatchFromMetaTxs` (utils.go): length check, then the signing
loop with a cancellation poll per element. -/
def CreateBatchFromMetaTxs {α : Type} (polls : Nat → Bool)
    (cryptoSign : List Nat → α → Except GoError (List Nat))
    (metaTxs : List MetaTx) (userPrivKeys : List α)
    (domainSeparator : List Nat) : Except GoError (List BatchMetaTxRequest) :=
  if metaTxs.length ≠ userPrivKeys.length then
    .error (.lengthMismatch metaTxs.length userPrivKeys.length)
  else
    createBatchFromMetaTxsAux polls cryptoSign domainSeparator 0 metaTxs
      userPrivKeys

/-- Loop of `VerifyBatchRequests` (relayer.go). -/
def verifyBatchRequestsAux (polls : Nat → Bool)
    (recoverAddr : List Nat → List Nat → Option Address)
    (domainSeparator : List Nat) :
    Nat → List BatchMetaTxRequest → Except GoError (List Bool)
  | _, [] => .ok []
  | i, req :: rest =>
    if polls i then .error .cancelled
    else
      match VerifyMetaTxSignature recoverAddr req.metaTx req.signature
          domainSeparator with
      | .error e => .error (.indexed i e)
      | .ok isValid =>
        match verifyBatchRequestsAux polls recoverAddr domainSeparator
            (i + 1) rest with
        | .error e => .error e
        | .ok results => .ok (isValid :: results)

/-- Go `VerifyBatchRequests` (relayer.go): per-element verification with a
cancellation poll per element. -/
def VerifyBatchRequests (polls : Nat → Bool)
    (recoverAddr : List Nat → List Nat → Option Address)
    (batchRequests : List BatchMetaTxRequest) (domainSeparator : List Nat) :
    Except GoError (List Bool) :=
  verifyBatchRequestsAux polls recoverAddr domainSeparator 0 batchRequests

/-! ### C1, C2: the EIP-712 address padding divergence -/

/-- The bytes of the domain name `"ERC2771Forwarder"`. -/
def erc2771ForwarderNameBytes : List Nat :=
  [69, 82, 67, 50, 55, 55, 49, 70, 111, 114, 119, 97, 114, 100, 101, 114]

/-- A concrete verifying-contract address `0x00…01`. -/
def c1Contract : Address := List.replicate 19 0 ++ [1]

/-- Go `BuildDomainSeparator` at the concrete input (digest of the 148-byte
unpadded preimage the code actually hashes). -/
def c1CodeSeparator : List Nat :=
  [120, 141, 153, 226, 212, 166, 156, 22, 20, 124, 73, 142, 73, 138, 75, 184,
   25, 151, 196, 130, 118, 240, 164, 139, 182, 253, 87, 135, 146, 76, 14, 119]

/-- The spec's domain separator at the same input (digest of the 160-byte
preimage with the left-padded address). -/
def c1SpecSeparator : List Nat :=
  [53, 189, 38, 121, 62, 155, 123, 48, 14, 246, 187, 200, 159, 184, 194, 149,
   94, 218, 3, 127, 204, 81, 170, 5, 114, 172, 243, 114, 195, 51, 111, 131]

/-- A concrete `MetaTx` for C2: `from = 0x00…02`, `to = 0x00…03`,
`token = 0x00…04`, amount 1, gas 100000, nonce 0, deadline 1000. -/
def c2MetaTx : MetaTx :=
  { From := List.replicate 19 0 ++ [2]
    To := List.replicate 19 0 ++ [3]
    Token := List.replicate 19 0 ++ [4]
    Amount := some 1
    Gas := 100000
    Nonce := 0
    Deadline := 1000 }

/-- An all-zero 32-byte domain separator for C2. -/
def c2DomainSep : List Nat := List.replicate 32 0

/-- Go `HashMetaTx` at the concrete input (digest over the 232-byte unpadded
struct preimage the code actually hashes). -/
def c2CodeDigest : List Nat :=
  [157, 180, 32, 166, 90, 169, 73, 46, 109, 97, 85, 212, 209, 209, 72, 119,
   47, 93, 178, 73, 172, 32, 34, 22, 63, 216, 148, 114, 145, 206, 41, 236]

/-- The spec's digest at the same input (struct preimage of 8 full 32-byte
words, with both addresses left-padded). -/
def c2SpecDigest : List Nat :=
  [72, 73, 125, 60, 202, 250, 249, 15, 74, 70, 171, 71, 36, 83, 66, 28,
   153, 82, 53, 118, 240, 93, 148, 57, 108, 16, 96, 181, 67, 16, 47, 94]


-- Decidable equality of results, used to evaluate the library functions at
-- concrete inputs.
deriving instance DecidableEq for Except

/-- A concrete signature value used by the witnesses. -/
def sig0 : Signature := ⟨27, List.replicate 32 1, List.replicate 32 2⟩

/-! ### Theorems -/

/-- Sanity check of the Keccak-256 embedding against the standard test vector
for the empty string. -/
theorem keccak256_nil_vector :
    keccak256 [] =
      [197, 210, 70, 1, 134, 247, 35, 60, 146, 126, 125, 178, 220, 199, 3, 192,
       229, 0, 182, 83, 202, 130, 39, 59, 123, 250, 216, 4, 93, 133, 164, 112] := by
  decide

/-- Sanity check of the Keccak-256 embedding against the standard test vector
for the three-byte string "abc". -/
theorem keccak256_abc_vector :
    keccak256 [97, 98, 99] =
      [78, 3, 101, 122, 234, 69, 169, 79, 199, 212, 123, 168, 38, 200, 214, 103,
       192, 209, 230, 227, 58, 100, 160, 54, 236, 68, 245, 143, 161, 45, 108, 69] := by
  decide

/-- C1 (code bug).  The claim states that `BuildDomainSeparator` hashes
the 160-byte concatenation ending in `leftpad32(verifyingContract)`.  The
source instead appends the raw 20 address bytes (even though it allocates
`32*5 = 160` bytes of capacity), so the hashed preimage is 148 bytes and the
result differs from the claimed value: at
`name = "ERC2771Forwarder"`, `version = "1"`, `chainId = 1`,
`verifyingContract = 0x00…01`, the code's preimage has length 148, not 160,
and its digest differs from the spec formula's digest. -/
theorem C1_buildDomainSeparator_missing_address_padding :
    BuildDomainSeparator erc2771ForwarderNameBytes [49] 1 c1Contract =
      .ok c1CodeSeparator ∧
    buildDomainSeparatorSpec erc2771ForwarderNameBytes [49] 1 c1Contract =
      c1SpecSeparator ∧
    c1CodeSeparator ≠ c1SpecSeparator ∧
    (keccak256 eip712DomainTypehashBytes ++ keccak256 erc2771ForwarderNameBytes ++
      keccak256 [49] ++ be32 1 ++ c1Contract).length = 148 := by
  refine ⟨by decide, by decide, by decide, by decide⟩

/-- C2 (code bug).  The claim states that the struct hash inside
`HashMetaTx` encodes `from` and `token` as `leftpad32` 32-byte words.  The
source appends `metaTx.From.Bytes()` and `metaTx.Token.Bytes()` — the raw 20
address bytes — so the struct preimage is 232 bytes instead of the 256 bytes
of `FORWARD_REQUEST_TYPEHASH` plus seven 32-byte words, and the digest
differs from the claimed value at a concrete input. -/
theorem C2_hashMetaTx_missing_address_padding :
    HashMetaTx c2MetaTx c2DomainSep = .ok c2CodeDigest ∧
    hashMetaTxSpec c2MetaTx c2DomainSep = c2SpecDigest ∧
    c2CodeDigest ≠ c2SpecDigest ∧
    (∀ transferData,
      (keccak256 forwardRequestTypehashBytes ++ c2MetaTx.From ++
        c2MetaTx.Token ++ be32 0 ++ be32 c2MetaTx.Gas ++ be32 c2MetaTx.Nonce ++
        be32 c2MetaTx.Deadline ++ keccak256 transferData).length = 232) := by
  refine ⟨by decide, by decide, by decide, ?_⟩
  intro transferData
  have h32 : ∀ msg : List Nat, (keccak256 msg).length = 32 := by
    intro msg
    simp [keccak256]
  simp [List.length_append, h32, c2MetaTx, be32]

/-! ### Shared helper lemmas -/

/-- Go `be32` always produces 32 bytes. -/
theorem be32_length (n : Nat) : (be32 n).length = 32 := by
  simp [be32]

/-- Go `keccak256` always produces 32 bytes. -/
theorem keccak256_length (msg : List Nat) : (keccak256 msg).length = 32 := by
  simp [keccak256]

/-- The first four bytes of `keccak256("transfer(address,uint256)")` are
`0xa9059cbb` (spec vector V1). -/
theorem transferSelector_bytes :
    (keccak256 transferSignatureBytes).take 4 = [0xa9, 0x05, 0x9c, 0xbb] := by
  decide

/-- C3. For every `MetaTx` with a non-nil amount `0 ≤ a < 2^256` and the
20-byte recipient address that `common.Address` guarantees, `TransferData`
returns exactly `selector(4) ‖ leftpad32(to) ‖ be32(amount)` with selector
`0xa9059cbb`, and the result is exactly 68 bytes long. -/
theorem C3_transferData_layout (m : MetaTx) (a : Int)
    (hA : m.Amount = some a) (h0 : 0 ≤ a) (hlt : a < 2 ^ 256)
    (hTo : m.To.length = 20) :
    m.TransferData =
      .ok ([0xa9, 0x05, 0x9c, 0xbb] ++ (List.replicate 12 0 ++ m.To) ++
        be32 a.toNat) ∧
    ∀ d, m.TransferData = .ok d → d.length = 68 := by
  have habs : a.natAbs = a.toNat := by omega
  have hmain : m.TransferData =
      .ok ([0xa9, 0x05, 0x9c, 0xbb] ++ (List.replicate 12 0 ++ m.To) ++
        be32 a.toNat) := by
    simp [MetaTx.TransferData, hA, fillBytes32, transferSelector_bytes, habs]
  refine ⟨hmain, fun d hd => ?_⟩
  rw [hmain] at hd
  cases hd
  simp [List.length_append, hTo, be32_length]

/-- Witness for C3 at the concrete `c2MetaTx` (amount 1, recipient
`0x00…03`). -/
theorem C3_transferData_layout_witness :
    c2MetaTx.Amount = some 1 ∧ (0 : Int) ≤ 1 ∧ (1 : Int) < 2 ^ 256 ∧
      c2MetaTx.To.length = 20 ∧
      (c2MetaTx.TransferData =
        .ok ([0xa9, 0x05, 0x9c, 0xbb] ++ (List.replicate 12 0 ++ c2MetaTx.To) ++
          be32 (1 : Int).toNat) ∧
       ∀ d, c2MetaTx.TransferData = .ok d → d.length = 68) :=
  ⟨rfl, by decide, by decide, by decide,
   C3_transferData_layout c2MetaTx 1 rfl (by decide) (by decide) (by decide)⟩

/-- The 65-byte buffer `ToBytes` builds is `R ‖ S ‖ [V]` when `R` and `S`
have the 32-byte lengths the Go array types guarantee. -/
theorem toBytes_eq_append (s : Signature) (hR : s.R.length = 32)
    (hS : s.S.length = 32) : s.ToBytes = s.R ++ s.S ++ [s.V] := by
  apply List.ext_getElem
  · simp [Signature.ToBytes, hR, hS]
  · intro i h1 h2
    simp only [Signature.ToBytes, List.getElem_map, List.getElem_range]
    by_cases h32 : i < 32
    · rw [if_pos h32,
        List.getElem_append_left
          (show i < (s.R ++ s.S).length by simp [hR, hS]; omega),
        List.getElem_append_left (show i < s.R.length by omega),
        List.getD_eq_getElem s.R 0 (show i < s.R.length by omega)]
    · rw [if_neg h32]
      by_cases h64 : i < 64
      · rw [if_pos h64,
          List.getElem_append_left
            (show i < (s.R ++ s.S).length by simp [hR, hS]; omega),
          List.getElem_append_right (show s.R.length ≤ i by omega),
          List.getD_eq_getElem s.S 0 (show i - 32 < s.S.length by omega)]
        simp [hR]
      · rw [if_neg h64]
        have hi : i = 64 := by
          have : i < 65 := by simpa [Signature.ToBytes] using h1
          omega
        subst hi
        rw [List.getElem_append_right (show (s.R ++ s.S).length ≤ 64 by simp [hR, hS])]
        simp [hR, hS]

/-- C4. Round trip: for every signature with the 32-byte `R`/`S` arrays
of the Go type, `FromBytes` applied to `ToBytes`'s output (on any receiver)
reconstructs the signature exactly and reports no error, and `ToBytes` emits
`r[0..32] ‖ s[0..32] ‖ v`. -/
theorem C4_signature_roundtrip (s recv : Signature) (hR : s.R.length = 32)
    (hS : s.S.length = 32) :
    Signature.FromBytes recv s.ToBytes = (s, none) ∧
    s.ToBytes = s.R ++ s.S ++ [s.V] := by
  have happ := toBytes_eq_append s hR hS
  refine ⟨?_, happ⟩
  rw [happ]
  have hlen : (s.R ++ s.S ++ [s.V]).length = 65 := by simp [hR, hS]
  have htake : (s.R ++ s.S ++ [s.V]).take 32 = s.R := by
    rw [List.append_assoc, List.take_left' hR]
  have hdrop : (s.R ++ s.S ++ [s.V]).drop 32 = s.S ++ [s.V] := by
    rw [List.append_assoc, List.drop_left' hR]
  have htake2 : ((s.R ++ s.S ++ [s.V]).drop 32).take 32 = s.S := by
    rw [hdrop, List.take_left' hS]
  have hv : (s.R ++ s.S ++ [s.V]).getD 64 0 = s.V := by
    rw [List.getD_append_right _ _ _ _ (show (s.R ++ s.S).length ≤ 64 by simp [hR, hS])]
    simp [hR, hS]
  simp only [Signature.FromBytes, hlen, if_neg (show ¬(65 : Nat) ≠ 65 by omega),
    htake, htake2, hv]

/-- Witness for C4 at a concrete signature (`V = 27`, `R = 1..32`,
`S = 33..64`) and a zero receiver. -/
theorem C4_signature_roundtrip_witness :
    ((⟨27, (List.range 32).map (· + 1), (List.range 32).map (· + 33)⟩ :
        Signature).R.length = 32) ∧
    ((⟨27, (List.range 32).map (· + 1), (List.range 32).map (· + 33)⟩ :
        Signature).S.length = 32) ∧
    (Signature.FromBytes ⟨0, List.replicate 32 0, List.replicate 32 0⟩
        (Signature.ToBytes
          ⟨27, (List.range 32).map (· + 1), (List.range 32).map (· + 33)⟩) =
      (⟨27, (List.range 32).map (· + 1), (List.range 32).map (· + 33)⟩, none) ∧
     Signature.ToBytes
        ⟨27, (List.range 32).map (· + 1), (List.range 32).map (· + 33)⟩ =
       ((List.range 32).map (· + 1)) ++ ((List.range 32).map (· + 33)) ++ [27]) :=
  ⟨by decide, by decide,
   C4_signature_roundtrip _ _ (by decide) (by decide)⟩

/-- C5. `FromBytes` fails with `InvalidSignatureLength` and leaves the
receiver unchanged exactly on inputs whose length is not 65; on every
65-byte input it succeeds. -/
theorem C5_fromBytes_length_check (s : Signature) (data : List Nat) :
    (data.length ≠ 65 →
      Signature.FromBytes s data = (s, some .invalidSignatureLength)) ∧
    (data.length = 65 → (Signature.FromBytes s data).2 = none) := by
  constructor
  · intro h
    simp only [Signature.FromBytes, if_pos h]
  · intro h
    simp only [Signature.FromBytes, if_neg (show ¬data.length ≠ 65 by omega)]

/-- Witness for C5: a 3-byte input fails with `InvalidSignatureLength` and
leaves the receiver unchanged; a 65-byte input succeeds. -/
theorem C5_fromBytes_length_check_witness :
    ((3 : Nat) ≠ 65 ∧
      Signature.FromBytes ⟨7, [1], [2]⟩ [0, 1, 2] =
        (⟨7, [1], [2]⟩, some .invalidSignatureLength)) ∧
    ((List.replicate 65 9).length = 65 ∧
      (Signature.FromBytes ⟨7, [1], [2]⟩ (List.replicate 65 9)).2 = none) :=
  ⟨⟨by decide, (C5_fromBytes_length_check ⟨7, [1], [2]⟩ [0, 1, 2]).1 (by decide)⟩,
   ⟨by decide, (C5_fromBytes_length_check ⟨7, [1], [2]⟩ (List.replicate 65 9)).2
      (by decide)⟩⟩

/-! ### C6: batch construction and nonce validation -/

/-- The loop of `ValidateBatchNonces` succeeds when every element's nonce is
the wrapped sum of the start nonce and its absolute index. -/
theorem validateBatchNoncesAux_ok (start : Nat) :
    ∀ (batch : List BatchMetaTxRequest) (k : Nat),
    (∀ j, j < batch.length →
      (batch.getD j default).metaTx.Nonce = (start + (k + j)) % 2 ^ 64) →
    validateBatchNoncesAux start k batch = .ok () := by
  intro batch
  induction batch with
  | nil => intro k _; rfl
  | cons req rest ih =>
    intro k h
    have h0 := h 0 (by simp)
    simp only [List.getD_cons_zero, Nat.add_zero] at h0
    simp only [validateBatchNoncesAux]
    rw [if_neg (by simp [h0])]
    exact ih (k + 1) fun j hj => by
      have hj1 := h (j + 1) (by simpa using Nat.succ_lt_succ hj)
      simpa [Nat.add_assoc, Nat.add_comm 1 j] using hj1

/-- The loop of `ValidateBatchNonces` reports the first mismatched index,
with the expected and actual nonces. -/
theorem validateBatchNoncesAux_error (start : Nat) :
    ∀ (batch : List BatchMetaTxRequest) (k i : Nat), i < batch.length →
    (batch.getD i default).metaTx.Nonce ≠ (start + (k + i)) % 2 ^ 64 →
    (∀ j, j < i →
      (batch.getD j default).metaTx.Nonce = (start + (k + j)) % 2 ^ 64) →
    validateBatchNoncesAux start k batch =
      .error (.invalidNonceAt (k + i) ((start + (k + i)) % 2 ^ 64)
        ((batch.getD i default).metaTx.Nonce)) := by
  intro batch
  induction batch with
  | nil => intro k i hi; simp at hi
  | cons req rest ih =>
    intro k i hi hbad hgood
    cases i with
    | zero =>
      simp only [List.getD_cons_zero, Nat.add_zero] at hbad ⊢
      simp only [validateBatchNoncesAux]
      rw [if_pos hbad]
    | succ i' =>
      have h0 := hgood 0 (Nat.succ_pos _)
      simp only [List.getD_cons_zero, Nat.add_zero] at h0
      simp only [validateBatchNoncesAux]
      rw [if_neg (by simp [h0])]
      have hrec := ih (k + 1) i' (by simpa using Nat.lt_of_succ_lt_succ hi)
        (by simpa [Nat.add_assoc, Nat.add_comm 1 i'] using hbad)
        (fun j hj => by
          have := hgood (j + 1) (Nat.succ_lt_succ hj)
          simpa [Nat.add_assoc, Nat.add_comm 1 j] using this)
      simpa [Nat.add_assoc, Nat.add_comm 1 i'] using hrec

/-- C6. `NewMetaTxBatch` fails with the length-mismatch error exactly
when the two arrays differ in length; on success `metaTxs[i]` carries the
given fields with nonce `startingNonce + i` (wrapped at 2^64, exact in the
absence of overflow); pairing the result with any signatures passes
`ValidateBatchNonces` at the same start nonce; and `ValidateBatchNonces`
reports the first index whose nonce differs from `expectedStart + i`. -/
theorem C6_newMetaTxBatch_nonces (fromA : Address) (recipients : List Address)
    (token : Address) (amounts : List (Option Int))
    (gas startingNonce deadline : Nat) :
    (NewMetaTxBatch fromA recipients token amounts gas startingNonce deadline =
        .error (.lengthMismatch recipients.length amounts.length) ↔
      recipients.length ≠ amounts.length) ∧
    (∀ txs,
      NewMetaTxBatch fromA recipients token amounts gas startingNonce deadline =
        .ok txs →
      txs.length = recipients.length ∧
      (∀ i, i < txs.length →
        txs.getD i default =
          { From := fromA, To := recipients.getD i [], Token := token,
            Amount := amounts.getD i none, Gas := gas,
            Nonce := (startingNonce + i) % 2 ^ 64, Deadline := deadline }) ∧
      (startingNonce + txs.length ≤ 2 ^ 64 →
        ∀ i, i < txs.length →
          (txs.getD i default).Nonce = startingNonce + i) ∧
      (∀ sigs : List Signature,
        ValidateBatchNonces
          (List.zipWith (fun t sg => (⟨t, sg⟩ : BatchMetaTxRequest)) txs sigs)
          startingNonce = .ok ())) ∧
    (∀ (batch : List BatchMetaTxRequest) (expectedStart i : Nat),
      i < batch.length →
      (batch.getD i default).metaTx.Nonce ≠ (expectedStart + i) % 2 ^ 64 →
      (∀ j, j < i →
        (batch.getD j default).metaTx.Nonce = (expectedStart + j) % 2 ^ 64) →
      ValidateBatchNonces batch expectedStart =
        .error (.invalidNonceAt i ((expectedStart + i) % 2 ^ 64)
          ((batch.getD i default).metaTx.Nonce))) := by
  refine ⟨?_, ?_, ?_⟩
  · constructor
    · intro h
      by_contra hlen
      simp only [NewMetaTxBatch, hlen, ne_eq, not_true_eq_false] at h
      rw [if_neg (by simp)] at h
      exact Except.noConfusion h
    · intro hlen
      simp only [NewMetaTxBatch, if_pos hlen]
  · intro txs htxs
    have hlen : ¬recipients.length ≠ amounts.length := by
      by_contra hc
      rw [NewMetaTxBatch, if_pos hc] at htxs
      exact Except.noConfusion htxs
    rw [NewMetaTxBatch, if_neg hlen] at htxs
    have htxs2 := htxs
    injection htxs2 with htxseq
    subst htxseq
    have hlen2 : ((List.range recipients.length).map fun i =>
        NewMetaTx fromA (recipients.getD i []) token (amounts.getD i none) gas
          ((startingNonce + i) % 2 ^ 64) deadline).length = recipients.length := by
      simp
    have hfield : ∀ i, i < recipients.length →
        (((List.range recipients.length).map fun i =>
          NewMetaTx fromA (recipients.getD i []) token (amounts.getD i none) gas
            ((startingNonce + i) % 2 ^ 64) deadline).getD i default) =
          { From := fromA, To := recipients.getD i [], Token := token,
            Amount := amounts.getD i none, Gas := gas,
            Nonce := (startingNonce + i) % 2 ^ 64, Deadline := deadline } := by
      intro i hi
      rw [List.getD_eq_getElem _ _ (by simpa using hi), List.getElem_map]
      simp [NewMetaTx]
    refine ⟨hlen2, by simpa [hlen2] using hfield, ?_, ?_⟩
    · intro hov i hi
      rw [hlen2] at hi
      rw [hfield i hi]
      have hlt : startingNonce + i < 2 ^ 64 := by
        rw [hlen2] at hov
        omega
      simpa using Nat.mod_eq_of_lt hlt
    · intro sigs
      apply validateBatchNoncesAux_ok
      intro j hj
      have hjtx : j < recipients.length := by
        simp only [List.length_zipWith, hlen2] at hj
        omega
      rw [List.getD_eq_getElem _ _ (by simpa using hj), List.getElem_zipWith]
      simp [NewMetaTx]
  · intro batch expectedStart i hi hbad hgood
    simpa using validateBatchNoncesAux_error expectedStart batch 0 i hi
      (by simpa using hbad) (fun j hj => by simpa using hgood j hj)

/-! ### C7–C10: verification routing, cancellation, constructors, totality -/


/-- Witness for C6: a length mismatch fails; a batch built with start nonce 7
validates at 7; and a batch whose first nonce is 7 fails at index 0 when
validated against start nonce 8. -/
theorem C6_newMetaTxBatch_nonces_witness :
    NewMetaTxBatch [] [[3]] [] [] 5 7 9 = .error (.lengthMismatch 1 0) ∧
    ValidateBatchNonces
      (List.zipWith (fun t sg => (⟨t, sg⟩ : BatchMetaTxRequest))
        [⟨[], [3], [], some 1, 5, 7, 9⟩, ⟨[], [4], [], some 2, 5, 8, 9⟩]
        [sig0, sig0]) 7 = .ok () ∧
    ValidateBatchNonces [⟨⟨[], [3], [], some 1, 5, 7, 9⟩, sig0⟩] 8 =
      .error (.invalidNonceAt 0 8 7) := by
  refine ⟨(C6_newMetaTxBatch_nonces [] [[3]] [] [] 5 7 9).1.mpr (by decide),
    ((C6_newMetaTxBatch_nonces [] [[3], [4]] [] [some 1, some 2] 5 7 9).2.1
      [⟨[], [3], [], some 1, 5, 7, 9⟩, ⟨[], [4], [], some 2, 5, 8, 9⟩]
      (by rfl)).2.2.2 [sig0, sig0], ?_⟩
  have h := (C6_newMetaTxBatch_nonces [] [] [] [] 0 0 0).2.2
    [⟨⟨[], [3], [], some 1, 5, 7, 9⟩, sig0⟩] 8 0 (by decide) (by decide)
    (fun j hj => absurd hj (by omega))
  simpa using h

/-- C7. With the digest of `HashMetaTx` in hand, `VerifyMetaTxSignature`
returns the boolean equality of the recovered address and `metaTx.From` when
the recovery primitive accepts the signature bytes, and returns the
`RecoveryFailed` error exactly when the primitive rejects them. -/
theorem C7_verifyMetaTxSignature_routing
    (recoverAddr : List Nat → List Nat → Option Address) (m : MetaTx)
    (sig : Signature) (ds hash : List Nat)
    (hHash : HashMetaTx m ds = .ok hash) :
    (∀ addr, recoverAddr hash sig.ToBytes = some addr →
      VerifyMetaTxSignature recoverAddr m sig ds = .ok (addr == m.From)) ∧
    (VerifyMetaTxSignature recoverAddr m sig ds = .error .recoveryFailed ↔
      recoverAddr hash sig.ToBytes = none) := by
  refine ⟨?_, ?_, ?_⟩
  · intro addr haddr
    simp only [VerifyMetaTxSignature, hHash, haddr]
  · intro herr
    cases hrec : recoverAddr hash sig.ToBytes with
    | none => rfl
    | some addr =>
      simp only [VerifyMetaTxSignature, hHash, hrec] at herr
      exact Except.noConfusion herr
  · intro hnone
    simp only [VerifyMetaTxSignature, hHash, hnone]

/-- Witness for C7: at a concrete transaction and digest, a primitive that
rejects yields `RecoveryFailed`, and one that recovers `From` yields
`.ok true`. -/
theorem C7_verifyMetaTxSignature_routing_witness :
    VerifyMetaTxSignature (fun _ _ => none) c2MetaTx sig0 c2DomainSep =
      .error .recoveryFailed ∧
    VerifyMetaTxSignature (fun _ _ => some c2MetaTx.From) c2MetaTx sig0
      c2DomainSep = .ok (c2MetaTx.From == c2MetaTx.From) :=
  ⟨(C7_verifyMetaTxSignature_routing (fun _ _ => none) c2MetaTx sig0
      c2DomainSep c2CodeDigest (by decide)).2.mpr rfl,
   (C7_verifyMetaTxSignature_routing (fun _ _ => some c2MetaTx.From) c2MetaTx
      sig0 c2DomainSep c2CodeDigest (by decide)).1 c2MetaTx.From rfl⟩

/-- C8. With an already-cancelled signal (every poll observes
cancellation), the three batch operations return `Cancelled` on every
non-empty batch, for every signing and recovery primitive — the primitives
are never consulted. -/
theorem C8_cancellation {α : Type} (polls : Nat → Bool)
    (cryptoSign : List Nat → α → Except GoError (List Nat))
    (recoverAddr : List Nat → List Nat → Option Address)
    (metaTxs : List MetaTx) (userPrivKey : α) (userPrivKeys : List α)
    (batch : List BatchMetaTxRequest) (ds : List Nat)
    (hCancelled : ∀ i, polls i = true) :
    (metaTxs ≠ [] →
      CreateBatchFromSingleUser polls cryptoSign metaTxs userPrivKey ds =
        .error .cancelled) ∧
    (metaTxs ≠ [] → metaTxs.length = userPrivKeys.length →
      CreateBatchFromMetaTxs polls cryptoSign metaTxs userPrivKeys ds =
        .error .cancelled) ∧
    (batch ≠ [] →
      VerifyBatchRequests polls recoverAddr batch ds = .error .cancelled) := by
  refine ⟨?_, ?_, ?_⟩
  · intro hne
    cases metaTxs with
    | nil => exact absurd rfl hne
    | cons m rest =>
      simp only [CreateBatchFromSingleUser, createBatchFromSingleUserAux,
        hCancelled 0, if_true]
  · intro hne hlen
    cases metaTxs with
    | nil => exact absurd rfl hne
    | cons m rest =>
      cases userPrivKeys with
      | nil => exact absurd hlen (by simp)
      | cons k keys =>
        simp only [CreateBatchFromMetaTxs, if_neg (by omega : ¬(m :: rest).length ≠ (k :: keys).length)]
        simp only [createBatchFromMetaTxsAux, hCancelled 0, if_true]
  · intro hne
    cases batch with
    | nil => exact absurd rfl hne
    | cons req rest =>
      simp only [VerifyBatchRequests, verifyBatchRequestsAux,
        hCancelled 0, if_true]

/-- Witness for C8: with the constantly-cancelled signal and concrete
primitives over `α = Nat`, all three operations return `Cancelled` on
singleton batches. -/
theorem C8_cancellation_witness :
    CreateBatchFromSingleUser (fun _ => true) (fun _ (_ : Nat) => .ok [])
      [c2MetaTx] 0 c2DomainSep = .error .cancelled ∧
    CreateBatchFromMetaTxs (fun _ => true) (fun _ (_ : Nat) => .ok [])
      [c2MetaTx] [0] c2DomainSep = .error .cancelled ∧
    VerifyBatchRequests (fun _ => true) (fun _ _ => none)
      [⟨c2MetaTx, sig0⟩] c2DomainSep = .error .cancelled := by
  have h := C8_cancellation (fun _ => true) (fun _ (_ : Nat) => .ok [])
    (fun _ _ => none) [c2MetaTx] 0 [0] [⟨c2MetaTx, sig0⟩] c2DomainSep
    (fun _ => rfl)
  exact ⟨h.1 (by simp), h.2.1 (by simp) rfl, h.2.2 (by simp)⟩

/-- C9. The constructors validate nothing: `NewMetaTx` and
`NewMetaTxWithDefaultGas` store exactly the given field values for every
input (zero addresses, nil or non-positive amounts and zero deadlines
included), `NewMetaTxBatch` always succeeds on equal-length arrays, and the
documented invariants are exactly what the separate `validateMetaTx` checks. -/
theorem C9_constructors_no_validation (fromA toA token : Address)
    (amount : Option Int) (gas nonce deadline : Nat) :
    NewMetaTx fromA toA token amount gas nonce deadline =
      { From := fromA, To := toA, Token := token, Amount := amount,
        Gas := gas, Nonce := nonce, Deadline := deadline } ∧
    NewMetaTxWithDefaultGas fromA toA token amount nonce deadline =
      { From := fromA, To := toA, Token := token, Amount := amount,
        Gas := 100000, Nonce := nonce, Deadline := deadline } ∧
    (∀ (recipients : List Address) (amounts : List (Option Int))
        startingNonce,
      recipients.length = amounts.length →
      ∃ txs, NewMetaTxBatch fromA recipients token amounts gas startingNonce
          deadline = .ok txs) ∧
    (∀ m : MetaTx, validateMetaTx m = .ok () ↔
      (m.From ≠ zeroAddr ∧ m.To ≠ zeroAddr ∧ m.Token ≠ zeroAddr ∧
        (∃ a, m.Amount = some a ∧ 0 < a) ∧ m.Deadline ≠ 0)) := by
  refine ⟨rfl, rfl, ?_, ?_⟩
  · intro recipients amounts startingNonce hlen
    exact ⟨_, by rw [NewMetaTxBatch, if_neg (by omega)]⟩
  · intro m
    rcases hA : m.Amount with _ | a <;> simp only [validateMetaTx, hA] <;>
      split_ifs <;> simp_all
/-- Witness for C9 at degenerate inputs: the constructors accept the zero
address, a nil amount and a zero deadline, and `validateMetaTx` accepts a
well-formed transaction. -/
theorem C9_constructors_no_validation_witness :
    NewMetaTx zeroAddr zeroAddr zeroAddr none 0 0 0 =
      { From := zeroAddr, To := zeroAddr, Token := zeroAddr, Amount := none,
        Gas := 0, Nonce := 0, Deadline := 0 } ∧
    (validateMetaTx c2MetaTx = .ok () ↔
      (c2MetaTx.From ≠ zeroAddr ∧ c2MetaTx.To ≠ zeroAddr ∧
        c2MetaTx.Token ≠ zeroAddr ∧
        (∃ a, c2MetaTx.Amount = some a ∧ 0 < a) ∧ c2MetaTx.Deadline ≠ 0)) :=
  ⟨(C9_constructors_no_validation zeroAddr zeroAddr zeroAddr none 0 0 0).1,
   (C9_constructors_no_validation zeroAddr zeroAddr zeroAddr none 0 0 0).2.2.2
     c2MetaTx⟩

/-- C10. For every `MetaTx` whose amount is non-nil and in `[0, 2^256)`,
`TransferData` and `HashMetaTx` never return an error, with a domain
separator of any length, and the digest is always 32 bytes. -/
theorem C10_hashMetaTx_total (m : MetaTx) (ds : List Nat) (a : Int)
    (_hA : m.Amount = some a) (_h0 : 0 ≤ a) (_hlt : a < 2 ^ 256) :
    (∃ d, m.TransferData = .ok d) ∧
    (∃ h, HashMetaTx m ds = .ok h ∧ h.length = 32) :=
  ⟨⟨_, rfl⟩, ⟨_, rfl, keccak256_length _⟩⟩

/-- Witness for C10 at `c2MetaTx` and a 3-byte (non-32-byte) domain
separator. -/
theorem C10_hashMetaTx_total_witness :
    c2MetaTx.Amount = some 1 ∧ (0 : Int) ≤ 1 ∧ (1 : Int) < 2 ^ 256 ∧
    ((∃ d, c2MetaTx.TransferData = .ok d) ∧
     (∃ h, HashMetaTx c2MetaTx [1, 2, 3] = .ok h ∧ h.length = 32)) :=
  ⟨rfl, by decide, by decide,
   C10_hashMetaTx_total c2MetaTx [1, 2, 3] 1 rfl (by decide) (by decide)⟩
